import Mathlib

/-!
Verification of the SendGrid notification adapter
(`src/sendgrid-notification-adapter.ts`).

The adapter's `send` method is embedded as a pure function from an adapter
state (configuration, optionally injected backend, and the outcome of the
template render for this call) and a notification to a result together with
a trace of observable collaborator events (template-render invocation,
backend recipient lookups, attachment-translation invocation, outbound mail
calls).  External collaborators (template renderer, backend, attachment
file handles, the mail client) are modelled by their outcomes, which is
what the adapter observes.
-/

deriving instance DecidableEq for Except

namespace VintasendSendgrid

/-- JavaScript truthiness of an optional string: `undefined`/`null` and the
empty string are falsy, every other string is truthy.  Used by the source
for `!notification.id` and the `this.config.fromName ?` ternary. -/
def strOptTruthy : Option String → Bool
  | some s => !s.isEmpty
  | none => false

/-- The base64 alphabet character for a 6-bit value. -/
def b64Char (n : Nat) : Char :=
  ("ABCDEFGHIJKLMNOPQRSTUVWXYZabcdefghijklmnopqrstuvwxyz0123456789+/".toList).getD n 'A'

/-- Standard base64 encoding of a byte sequence (each `Nat` is one byte),
as produced by `Buffer.toString` with encoding `base64` in the source. -/
def base64Encode : List Nat → String
  | [] => ""
  | [b1] =>
      String.mk [b64Char (b1 / 4), b64Char (b1 % 4 * 16), '=', '=']
  | [b1, b2] =>
      String.mk [b64Char (b1 / 4), b64Char (b1 % 4 * 16 + b2 / 16),
                 b64Char (b2 % 16 * 4), '=']
  | b1 :: b2 :: b3 :: rest =>
      String.mk [b64Char (b1 / 4), b64Char (b1 % 4 * 16 + b2 / 16),
                 b64Char (b2 % 16 * 4 + b3 / 64), b64Char (b3 % 64)]
        ++ base64Encode rest

/-- A stored attachment as the adapter consumes it: `filename`,
`contentType`, and a file handle whose byte-read operation either yields
the raw bytes or fails; `file` holds the outcome of `file.read()`. -/
structure StoredAttachment where
  filename : String
  contentType : String
  file : Except String (List Nat)
deriving DecidableEq

/-- The wire-format attachment descriptor handed to the mail client
(`AttachmentData`). -/
structure AttachmentData where
  filename : String
  content : String
  type : String
  disposition : String
deriving DecidableEq

/-- The rendered template returned by the external template renderer. -/
structure RenderedTemplate where
  subject : String
  body : String
deriving DecidableEq

/-- Adapter configuration (`SendgridConfig`). -/
structure SendgridConfig where
  apiKey : String
  fromEmail : String
  fromName : Option String
deriving DecidableEq

/-- The injected backend collaborator, reduced to the one operation this
component uses: recipient lookup by notification id. -/
structure Backend where
  getUserEmailFromNotification : String → Option String

/-- A notification as the adapter consumes it.  `emailOrPhone` is present
exactly on one-off notifications; `attachments` is absent or an ordered
sequence of stored attachments. -/
structure Notification where
  id : Option String
  userId : Option String
  emailOrPhone : Option String
  attachments : Option (List StoredAttachment)
deriving DecidableEq

/-- The `from` field of the outbound request: either the bare sender email
string or the structured pair with a display name. -/
inductive FromField where
  | bare (email : String)
  | pair (email : String) (name : String)
deriving DecidableEq

/-- The outbound mail request (`MailDataRequired` as assembled by `send`):
`attachments` is `none` exactly when the key is omitted. -/
structure MailData where
  «to» : String
  «from» : FromField
  subject : String
  html : String
  attachments : Option (List AttachmentData)
deriving DecidableEq

/-- Observable collaborator events of one `send` call, in order: a
template-render invocation, a backend recipient lookup, an invocation of
the attachment translator, an outbound mail call with its payload. -/
inductive Event where
  | renderCall : Event
  | backendLookup (id : String) : Event
  | attachCall : Event
  | mailSend (mail : MailData) : Event
deriving DecidableEq

/-- The outbound mail calls recorded in a trace, in order. -/
def mailCalls (tr : List Event) : List MailData :=
  tr.filterMap fun e =>
    match e with
    | Event.mailSend m => some m
    | _ => none

/-- The sender field exactly as the source's ternary assembles it:
`this.config.fromName ? { email, name } : this.config.fromEmail`, where a
`fromName` that is absent or the empty string is falsy. -/
def mkFrom (config : SendgridConfig) : FromField :=
  match config.fromName with
  | some name =>
      if name = "" then FromField.bare config.fromEmail
      else FromField.pair config.fromEmail name
  | none => FromField.bare config.fromEmail

/-- `prepareAttachments`: for each stored attachment in order, read its
bytes (a failure aborts the whole translation with that error) and emit
`{ filename, content := base64, type := contentType, disposition :=
"attachment" }`. -/
def prepareAttachments : List StoredAttachment → Except String (List AttachmentData)
  | [] => .ok []
  | att :: rest =>
    match att.file with
    | .error e => .error e
    | .ok content =>
      match prepareAttachments rest with
      | .error e => .error e
      | .ok tail =>
          .ok ({ filename := att.filename, content := base64Encode content,
                 type := att.contentType, disposition := "attachment" } :: tail)

/-- Modelled from the spec: the recipient-resolution helper
`getRecipientEmail` is inherited from the vintasend base adapter and its
source is not part of this repository.  Per spec section 4.1 and the
repository's tests: a notification carrying an `emailOrPhone` field is a
one-off and that address is returned directly with no backend lookup (an
empty address passes through unchanged); otherwise the backend is queried
by the notification's id, and an absent result fails with a message naming
that id.  The second component records the backend lookups performed. -/
def getRecipientEmail (backend : Backend) (notification : Notification) :
    Except String String × List Event :=
  match notification.emailOrPhone with
  | some addr => (.ok addr, [])
  | none =>
    let nid := notification.id.getD ""
    match backend.getUserEmailFromNotification nid with
    | some email => (.ok email, [Event.backendLookup nid])
    | none =>
        (.error ("User email not found for notification " ++ nid),
         [Event.backendLookup nid])

/-- The adapter state a `send` call observes: the construction-time
configuration, the backend if one was injected, and the outcome of
`templateRenderer.render(notification, context)` for this call. -/
structure Adapter where
  config : SendgridConfig
  backend : Option Backend
  render : Except String RenderedTemplate

/-- `SendgridNotificationAdapter.send`, step for step from the source:
check the backend was injected; await the template render (its failure
propagates); check `notification.id` is truthy; resolve the recipient via
`getRecipientEmail`; assemble the mail payload with the ternary-built
sender; if `notification.attachments && notification.attachments.length >
0`, translate the attachments (a failure propagates); finally perform the
one outbound mail call. -/
def send (adapter : Adapter) (notification : Notification) :
    Except String Unit × List Event :=
  match adapter.backend with
  | none => (.error "Backend not injected", [])
  | some backend =>
    match adapter.render with
    | .error e => (.error e, [Event.renderCall])
    | .ok template =>
      if strOptTruthy notification.id = false then
        (.error "Notification ID is required", [Event.renderCall])
      else
        match getRecipientEmail backend notification with
        | (.error e, ev) => (.error e, Event.renderCall :: ev)
        | (.ok recipientEmail, ev) =>
          let mailData : MailData :=
            { «to» := recipientEmail
              «from» := mkFrom adapter.config
              subject := template.subject
              html := template.body
              attachments := none }
          match notification.attachments with
          | some atts =>
            if atts.length > 0 then
              match prepareAttachments atts with
              | .error e =>
                  (.error e, Event.renderCall :: ev ++ [Event.attachCall])
              | .ok prepared =>
                  (.ok (), Event.renderCall :: ev ++
                    [Event.attachCall,
                     Event.mailSend { mailData with attachments := some prepared }])
            else
              (.ok (), Event.renderCall :: ev ++ [Event.mailSend mailData])
          | none =>
              (.ok (), Event.renderCall :: ev ++ [Event.mailSend mailData])

/-- All attachment translations a notification would need succeed. -/
def attachPrepOk (n : Notification) : Prop :=
  ∀ atts, n.attachments = some atts → ∃ l, prepareAttachments atts = .ok l

/-- A backend resolving notification id "1" to the spec scenario's
address and nothing else. -/
def demoBackend : Backend :=
  ⟨fun nid => if nid = "1" then some "b@y.com" else none⟩

/-- The spec scenario's configuration. -/
def demoConfig : SendgridConfig := ⟨"K", "a@x.com", some "App"⟩

/-- The spec scenario's adapter: configured, backend injected, render
succeeding with subject "S" and body a paragraph. -/
def demoAdapter : Adapter :=
  ⟨demoConfig, some demoBackend, .ok ⟨"S", "<p>B</p>"⟩⟩

/-- The spec scenario's account-bound notification. -/
def demoNotification : Notification := ⟨some "1", some "u", none, none⟩

/-- The spec scenario's one-off notification. -/
def demoOneOff : Notification := ⟨some "2", none, some "c@z.com", none⟩

/-- An attachment whose read yields the bytes of "test". -/
def demoAttachment : StoredAttachment :=
  ⟨"test.pdf", "application/pdf", .ok [116, 101, 115, 116]⟩

/-- The scenario notification extended with one attachment. -/
def demoAttachNotification : Notification :=
  ⟨some "1", some "u", none, some [demoAttachment]⟩

/-- An attachment whose byte-read fails. -/
def badAttachment : StoredAttachment :=
  ⟨"bad.pdf", "application/pdf", .error "read failed"⟩

/-- A notification whose second attachment's byte-read fails. -/
def badAttachNotification : Notification :=
  ⟨some "1", some "u", none, some [demoAttachment, badAttachment]⟩

/-- An account-bound notification without an id. -/
def noIdNotification : Notification := ⟨none, some "u", none, none⟩

/-- The scenario adapter with `fromName` configured as the empty string. -/
def emptyNameAdapter : Adapter :=
  ⟨⟨"K", "a@x.com", some ""⟩, some demoBackend, .ok ⟨"S", "<p>B</p>"⟩⟩

/-- The scenario adapter before any backend injection. -/
def noBackendAdapter : Adapter :=
  ⟨demoConfig, none, .ok ⟨"S", "<p>B</p>"⟩⟩

/-- The scenario adapter with a failing template render. -/
def failRenderAdapter : Adapter :=
  ⟨demoConfig, some demoBackend, .error "Template render failed"⟩

/-- An account-bound notification whose id `demoBackend` cannot resolve. -/
def unknownUserNotification : Notification := ⟨some "9", some "u", none, none⟩

/-- The scenario notification with an explicitly empty attachment list. -/
def emptyAttachNotification : Notification :=
  ⟨some "1", some "u", none, some []⟩

/-- A truthy `fromName` yields the structured sender pair. -/
theorem mkFrom_pair (c : SendgridConfig) (name : String)
    (h : c.fromName = some name) (hne : name ≠ "") :
    mkFrom c = FromField.pair c.fromEmail name := by
  simp [mkFrom, h, hne]

/-- An absent `fromName` yields the bare sender email. -/
theorem mkFrom_absent (c : SendgridConfig) (h : c.fromName = none) :
    mkFrom c = FromField.bare c.fromEmail := by
  simp [mkFrom, h]

/-- An empty `fromName` is falsy and yields the bare sender email. -/
theorem mkFrom_emptyName (c : SendgridConfig) (h : c.fromName = some "") :
    mkFrom c = FromField.bare c.fromEmail := by
  simp [mkFrom, h]

/-- Recipient resolution emits no events or exactly one backend lookup. -/
theorem getRecipientEmail_events (b : Backend) (n : Notification) :
    (getRecipientEmail b n).snd = [] ∨
    (getRecipientEmail b n).snd = [Event.backendLookup (n.id.getD "")] := by
  rcases hE : n.emailOrPhone with _ | addr
  · rcases hL : b.getUserEmailFromNotification (n.id.getD "") with _ | em <;>
      simp [getRecipientEmail, hE, hL]
  · simp [getRecipientEmail, hE]

/-- Recipient resolution performs no mail call. -/
theorem mailCalls_getRecipientEmail (b : Backend) (n : Notification) :
    mailCalls (getRecipientEmail b n).snd = [] := by
  rcases getRecipientEmail_events b n with h | h <;> simp [h, mailCalls]

/-- Recipient resolution never invokes the attachment translator. -/
theorem attachCall_not_in_getRecipientEmail (b : Backend) (n : Notification) :
    Event.attachCall ∉ (getRecipientEmail b n).snd := by
  rcases getRecipientEmail_events b n with h | h <;> simp [h]

/-- A one-off notification resolves directly with no events. -/
theorem getRecipientEmail_oneOff (b : Backend) (n : Notification) (addr : String)
    (h : n.emailOrPhone = some addr) :
    getRecipientEmail b n = (.ok addr, []) := by
  simp [getRecipientEmail, h]

/-- A successful attachment translation is elementwise: same length, and
each output element carries the base64-encoded bytes of the input at the
same index, with filename and content type copied and the fixed
disposition. -/
theorem prepareAttachments_spec (atts : List StoredAttachment) :
    ∀ l : List AttachmentData, prepareAttachments atts = .ok l →
      l.length = atts.length ∧
      ∀ i (hi : i < atts.length) (hl : i < l.length),
        ∃ bytes, (atts.get ⟨i, hi⟩).file = .ok bytes ∧
          l.get ⟨i, hl⟩ =
            { filename := (atts.get ⟨i, hi⟩).filename,
              content := base64Encode bytes,
              type := (atts.get ⟨i, hi⟩).contentType,
              disposition := "attachment" } := by
  induction atts with
  | nil =>
    intro l h
    simp only [prepareAttachments, Except.ok.injEq] at h
    subst h
    exact ⟨rfl, fun i hi => absurd hi (Nat.not_lt_zero i)⟩
  | cons att rest ih =>
    intro l h
    simp only [prepareAttachments] at h
    rcases hf : att.file with e | content
    · rw [hf] at h; exact absurd h (by simp)
    · rw [hf] at h
      rcases hp : prepareAttachments rest with e | tail
      · rw [hp] at h; exact absurd h (by simp)
      · rw [hp] at h
        simp only [Except.ok.injEq] at h
        subst h
        obtain ⟨hlen, helem⟩ := ih tail hp
        refine ⟨by simp [hlen], ?_⟩
        intro i hi hl
        match i with
        | 0 => exact ⟨content, hf, rfl⟩
        | Nat.succ j =>
          have hj : j < rest.length := by simpa using hi
          have hjl : j < tail.length := by simpa using hl
          obtain ⟨bytes, h1, h2⟩ := helem j hj hjl
          exact ⟨bytes, h1, h2⟩

/-- If every byte-read succeeds, the attachment translation succeeds. -/
theorem prepareAttachments_allOk (atts : List StoredAttachment)
    (h : ∀ att ∈ atts, ∃ bytes, att.file = .ok bytes) :
    ∃ l, prepareAttachments atts = .ok l := by
  induction atts with
  | nil => exact ⟨[], rfl⟩
  | cons att rest ih =>
    obtain ⟨bytes, hb⟩ := h att (List.mem_cons_self att rest)
    obtain ⟨tail, ht⟩ := ih (fun a ha => h a (List.mem_cons_of_mem att ha))
    refine ⟨{ filename := att.filename, content := base64Encode bytes,
              type := att.contentType, disposition := "attachment" } :: tail, ?_⟩
    simp only [prepareAttachments, hb, ht]

/-- If the read at index `i` fails with `e` and every earlier read
succeeds, the attachment translation fails with exactly `e`. -/
theorem prepareAttachments_error_at (atts : List StoredAttachment)
    (i : Nat) (e : String) :
    ∀ hi : i < atts.length, (atts.get ⟨i, hi⟩).file = .error e →
      (∀ j (hj : j < atts.length), j < i → ∃ bytes, (atts.get ⟨j, hj⟩).file = .ok bytes) →
      prepareAttachments atts = .error e := by
  induction atts generalizing i with
  | nil => intro hi; exact absurd hi (Nat.not_lt_zero i)
  | cons att rest ih =>
    intro hi hfail hbefore
    match i with
    | 0 =>
      simp only [List.get] at hfail
      simp only [prepareAttachments, hfail]
    | Nat.succ j =>
      obtain ⟨bytes, hb⟩ := hbefore 0 (Nat.zero_lt_succ _) (Nat.zero_lt_succ _)
      simp only [List.get] at hb
      have hj : j < rest.length := by simpa using hi
      have htail : prepareAttachments rest = .error e := by
        refine ih j hj ?_ ?_
        · exact hfail
        · intro k hk hki
          exact hbefore (k + 1) (by simpa using hk) (Nat.succ_lt_succ hki)
      simp only [prepareAttachments, hb, htail]

/-- Characterization of `send` once the backend is injected, the id is
truthy, the render succeeded, and the recipient resolved. -/
theorem send_resolved (adapter : Adapter) (n : Notification) (b : Backend)
    (t : RenderedTemplate) (addr : String)
    (hb : adapter.backend = some b)
    (hid : strOptTruthy n.id = true)
    (hr : adapter.render = .ok t)
    (ha : (getRecipientEmail b n).fst = .ok addr) :
    send adapter n =
      (let ev := (getRecipientEmail b n).snd
       let mailData : MailData :=
         { «to» := addr, «from» := mkFrom adapter.config,
           subject := t.subject, html := t.body, attachments := none }
       match n.attachments with
       | some atts =>
         if atts.length > 0 then
           match prepareAttachments atts with
           | .error e => (.error e, Event.renderCall :: ev ++ [Event.attachCall])
           | .ok prepared =>
               (.ok (), Event.renderCall :: ev ++
                 [Event.attachCall,
                  Event.mailSend { mailData with attachments := some prepared }])
         else (.ok (), Event.renderCall :: ev ++ [Event.mailSend mailData])
       | none => (.ok (), Event.renderCall :: ev ++ [Event.mailSend mailData])) := by
  rcases hg : getRecipientEmail b n with ⟨res, ev⟩
  rw [hg] at ha
  simp only at ha
  subst ha
  simp [send, hb, hr, hid, hg]

/-- `mailCalls` ignores render events. -/
theorem mailCalls_cons_render (tr : List Event) :
    mailCalls (Event.renderCall :: tr) = mailCalls tr := by
  simp [mailCalls]

/-- `mailCalls` ignores backend-lookup events. -/
theorem mailCalls_cons_lookup (nid : String) (tr : List Event) :
    mailCalls (Event.backendLookup nid :: tr) = mailCalls tr := by
  simp [mailCalls]

/-- `mailCalls` ignores attachment-translation events. -/
theorem mailCalls_cons_attach (tr : List Event) :
    mailCalls (Event.attachCall :: tr) = mailCalls tr := by
  simp [mailCalls]

/-- `mailCalls` collects mail events. -/
theorem mailCalls_cons_mail (m : MailData) (tr : List Event) :
    mailCalls (Event.mailSend m :: tr) = m :: mailCalls tr := by
  simp [mailCalls]

/-- `mailCalls` distributes over concatenation. -/
theorem mailCalls_append (t1 t2 : List Event) :
    mailCalls (t1 ++ t2) = mailCalls t1 ++ mailCalls t2 := by
  simp [mailCalls]

/-- An empty trace holds no mail calls. -/
theorem mailCalls_nil : mailCalls [] = [] := rfl

/-- On the happy path, the trace holds exactly one mail call, carrying the
resolved recipient, the ternary-built sender and the rendered strings. -/
theorem send_mail_singleton (adapter : Adapter) (n : Notification) (b : Backend)
    (t : RenderedTemplate) (addr : String)
    (hb : adapter.backend = some b)
    (hid : strOptTruthy n.id = true)
    (hr : adapter.render = .ok t)
    (ha : (getRecipientEmail b n).fst = .ok addr)
    (hprep : attachPrepOk n) :
    ∃ matt : Option (List AttachmentData),
      mailCalls (send adapter n).snd =
        [{ «to» := addr, «from» := mkFrom adapter.config, subject := t.subject,
           html := t.body, attachments := matt }] := by
  have hcore := send_resolved adapter n b t addr hb hid hr ha
  have hmc := mailCalls_getRecipientEmail b n
  rcases hatt : n.attachments with _ | atts
  · rw [hatt] at hcore
    refine ⟨none, ?_⟩
    rw [hcore]
    simp [mailCalls_cons_render, mailCalls_append, mailCalls_cons_mail, mailCalls_nil, hmc]
  · rw [hatt] at hcore
    obtain ⟨l, hl⟩ := hprep atts hatt
    by_cases hlen : atts.length > 0
    · simp only [hl, hlen, if_true] at hcore
      refine ⟨some l, ?_⟩
      rw [hcore]
      simp [mailCalls_cons_render, mailCalls_cons_attach, mailCalls_append, mailCalls_cons_mail, mailCalls_nil, hmc]
    · simp only [hl, hlen, if_false] at hcore
      refine ⟨none, ?_⟩
      rw [hcore]
      simp [mailCalls_cons_render, mailCalls_append, mailCalls_cons_mail, mailCalls_nil, hmc]

/-- Claim C1: with a backend injected, a truthy notification id, a
successful template render, a resolved recipient and successful attachment
translation, `send` performs exactly one outbound mail call, whose payload
sends to the resolved recipient with the rendered subject and body, the
structured sender pair when a (nonempty) `fromName` is configured, and the
bare `fromEmail` string when `fromName` is absent. -/
theorem send_payload_correct (adapter : Adapter) (n : Notification) (b : Backend)
    (t : RenderedTemplate) (addr : String)
    (hb : adapter.backend = some b)
    (hid : strOptTruthy n.id = true)
    (hr : adapter.render = .ok t)
    (ha : (getRecipientEmail b n).fst = .ok addr)
    (hprep : attachPrepOk n) :
    ∃ m : MailData,
      mailCalls (send adapter n).snd = [m] ∧
      m.«to» = addr ∧ m.subject = t.subject ∧ m.html = t.body ∧
      (∀ name, adapter.config.fromName = some name → name ≠ "" →
        m.«from» = FromField.pair adapter.config.fromEmail name) ∧
      (adapter.config.fromName = none →
        m.«from» = FromField.bare adapter.config.fromEmail) := by
  obtain ⟨matt, hm⟩ := send_mail_singleton adapter n b t addr hb hid hr ha hprep
  refine ⟨{ «to» := addr, «from» := mkFrom adapter.config, subject := t.subject,
            html := t.body, attachments := matt }, hm, rfl, rfl, rfl, ?_, ?_⟩
  · exact fun name hn hne => mkFrom_pair adapter.config name hn hne
  · exact fun hn => mkFrom_absent adapter.config hn

/-- Witness for claim C1: the spec's scenario — config
`{apiKey "K", fromEmail "a@x.com", fromName "App"}`, account notification
id "1", backend resolving it to "b@y.com", render producing subject "S"
and body a paragraph — yields exactly one mail call with that payload. -/
theorem send_payload_correct_witness :
    ∃ m : MailData,
      mailCalls (send demoAdapter demoNotification).snd = [m] ∧
      m.«to» = "b@y.com" ∧ m.subject = "S" ∧ m.html = "<p>B</p>" ∧
      (∀ name, demoAdapter.config.fromName = some name → name ≠ "" →
        m.«from» = FromField.pair demoAdapter.config.fromEmail name) ∧
      (demoAdapter.config.fromName = none →
        m.«from» = FromField.bare demoAdapter.config.fromEmail) :=
  send_payload_correct demoAdapter demoNotification demoBackend
    ⟨"S", "<p>B</p>"⟩ "b@y.com" rfl rfl rfl rfl
    (fun _atts h => Option.noConfusion h)

/-- Claim C2 counterexample: on an adapter with an injected backend and a
notification with an absent id, `send` does fail with the id-required
error, but the template renderer HAS been invoked by then — the render
call is in the trace, refuting "without ever invoking the template
renderer" (the source renders before checking `notification.id`). -/
theorem send_id_check_cex :
    (send demoAdapter noIdNotification).fst = .error "Notification ID is required" ∧
    Event.renderCall ∈ (send demoAdapter noIdNotification).snd := by
  decide

/-- Claim C2 (amended): `send` checks the backend precondition first, but
the template render happens before the id check: for every notification
with a falsy id, on an adapter with an injected backend whose render
succeeds, `send` fails with the "Notification ID is required" error after
invoking the template renderer exactly once, and performs no recipient
lookup, attachment translation or mail call. -/
theorem send_missing_id_after_render (adapter : Adapter) (n : Notification)
    (b : Backend) (t : RenderedTemplate)
    (hb : adapter.backend = some b)
    (hid : strOptTruthy n.id = false)
    (hr : adapter.render = .ok t) :
    (send adapter n).fst = .error "Notification ID is required" ∧
    (send adapter n).snd = [Event.renderCall] := by
  constructor <;> simp [send, hb, hr, hid]

/-- Witness for the amended claim C2 at the scenario adapter and an
id-less notification. -/
theorem send_missing_id_after_render_witness :
    (send demoAdapter noIdNotification).fst = .error "Notification ID is required" ∧
    (send demoAdapter noIdNotification).snd = [Event.renderCall] :=
  send_missing_id_after_render demoAdapter noIdNotification demoBackend
    ⟨"S", "<p>B</p>"⟩ rfl rfl rfl

/-- Claim C3: with N ≥ 1 attachments, all of whose byte-reads succeed
(and the happy-path hypotheses), the single outbound request's attachments
array has exactly N elements; element i carries the base64 encoding of the
bytes read from attachment i, the filename and contentType copied
verbatim, and disposition "attachment", in input order. -/
theorem send_attachments_translated (adapter : Adapter) (n : Notification)
    (b : Backend) (t : RenderedTemplate) (addr : String)
    (atts : List StoredAttachment)
    (hb : adapter.backend = some b)
    (hid : strOptTruthy n.id = true)
    (hr : adapter.render = .ok t)
    (ha : (getRecipientEmail b n).fst = .ok addr)
    (hatts : n.attachments = some atts)
    (hlen : 0 < atts.length)
    (hreads : ∀ att ∈ atts, ∃ bytes, att.file = .ok bytes) :
    ∃ m l, mailCalls (send adapter n).snd = [m] ∧
      m.attachments = some l ∧
      l.length = atts.length ∧
      ∀ i (hi : i < atts.length) (hl : i < l.length),
        ∃ bytes, (atts.get ⟨i, hi⟩).file = .ok bytes ∧
          l.get ⟨i, hl⟩ =
            { filename := (atts.get ⟨i, hi⟩).filename,
              content := base64Encode bytes,
              type := (atts.get ⟨i, hi⟩).contentType,
              disposition := "attachment" } := by
  obtain ⟨l, hl⟩ := prepareAttachments_allOk atts hreads
  have hcore := send_resolved adapter n b t addr hb hid hr ha
  rw [hatts] at hcore
  simp only [hl, hlen, if_true] at hcore
  obtain ⟨hlen2, helem⟩ := prepareAttachments_spec atts l hl
  refine ⟨{ «to» := addr, «from» := mkFrom adapter.config, subject := t.subject,
            html := t.body, attachments := some l }, l, ?_, rfl, hlen2, helem⟩
  rw [hcore]
  simp [mailCalls_cons_render, mailCalls_cons_attach, mailCalls_append,
        mailCalls_cons_mail, mailCalls_nil, mailCalls_getRecipientEmail]

/-- Witness for claim C3 at the scenario with one attachment whose read
yields the bytes of "test". -/
theorem send_attachments_translated_witness :
    ∃ m l, mailCalls (send demoAdapter demoAttachNotification).snd = [m] ∧
      m.attachments = some l ∧
      l.length = ([demoAttachment] : List StoredAttachment).length ∧
      ∀ i (hi : i < ([demoAttachment] : List StoredAttachment).length)
        (hl : i < l.length),
        ∃ bytes, (([demoAttachment] : List StoredAttachment).get ⟨i, hi⟩).file = .ok bytes ∧
          l.get ⟨i, hl⟩ =
            { filename := (([demoAttachment] : List StoredAttachment).get ⟨i, hi⟩).filename,
              content := base64Encode bytes,
              type := (([demoAttachment] : List StoredAttachment).get ⟨i, hi⟩).contentType,
              disposition := "attachment" } :=
  send_attachments_translated demoAdapter demoAttachNotification demoBackend
    ⟨"S", "<p>B</p>"⟩ "b@y.com" [demoAttachment] rfl rfl rfl rfl rfl
    (by decide)
    (by
      intro att h
      rw [List.mem_singleton] at h
      subst h
      exact ⟨[116, 101, 115, 116], rfl⟩)

/-- Claim C4: when a notification's attachments are absent or the empty
sequence (and the happy-path hypotheses hold), the single outbound request
carries no attachments field at all (`none`, not `some []`) and the
attachment translator is never invoked. -/
theorem send_attachments_omitted (adapter : Adapter) (n : Notification) (b : Backend)
    (t : RenderedTemplate) (addr : String)
    (hb : adapter.backend = some b)
    (hid : strOptTruthy n.id = true)
    (hr : adapter.render = .ok t)
    (ha : (getRecipientEmail b n).fst = .ok addr)
    (hatt : n.attachments = none ∨ n.attachments = some []) :
    ∃ m, mailCalls (send adapter n).snd = [m] ∧ m.attachments = none ∧
      Event.attachCall ∉ (send adapter n).snd := by
  have hcore := send_resolved adapter n b t addr hb hid hr ha
  have hmc := mailCalls_getRecipientEmail b n
  have hac := attachCall_not_in_getRecipientEmail b n
  rcases hatt with h | h
  · rw [h] at hcore
    refine ⟨{ «to» := addr, «from» := mkFrom adapter.config, subject := t.subject,
              html := t.body, attachments := none }, ?_, rfl, ?_⟩
    · rw [hcore]
      simp [mailCalls_cons_render, mailCalls_append, mailCalls_cons_mail,
            mailCalls_nil, hmc]
    · rw [hcore]
      simp [hac]
  · rw [h] at hcore
    refine ⟨{ «to» := addr, «from» := mkFrom adapter.config, subject := t.subject,
              html := t.body, attachments := none }, ?_, rfl, ?_⟩
    · rw [hcore]
      simp [mailCalls_cons_render, mailCalls_append, mailCalls_cons_mail,
            mailCalls_nil, hmc]
    · rw [hcore]
      simp [hac]

/-- Witness for claim C4 at the scenario adapter and a notification whose
attachment list is present but empty. -/
theorem send_attachments_omitted_witness :
    ∃ m, mailCalls (send demoAdapter emptyAttachNotification).snd = [m] ∧
      m.attachments = none ∧
      Event.attachCall ∉ (send demoAdapter emptyAttachNotification).snd :=
  send_attachments_omitted demoAdapter emptyAttachNotification demoBackend
    ⟨"S", "<p>B</p>"⟩ "b@y.com" rfl rfl rfl rfl (Or.inr rfl)

/-- Claim C5: for a one-off notification (one carrying `emailOrPhone`),
`send` performs no backend recipient lookup at all and the single outbound
request's `to` equals the notification's own `emailOrPhone`. -/
theorem send_oneOff_direct (adapter : Adapter) (n : Notification) (b : Backend)
    (t : RenderedTemplate) (addr : String)
    (hb : adapter.backend = some b)
    (hid : strOptTruthy n.id = true)
    (hr : adapter.render = .ok t)
    (hone : n.emailOrPhone = some addr)
    (hprep : attachPrepOk n) :
    (∀ nid, Event.backendLookup nid ∉ (send adapter n).snd) ∧
    ∃ m, mailCalls (send adapter n).snd = [m] ∧ m.«to» = addr := by
  have hres := getRecipientEmail_oneOff b n addr hone
  have ha : (getRecipientEmail b n).fst = .ok addr := by rw [hres]
  have hcore := send_resolved adapter n b t addr hb hid hr ha
  rw [hres] at hcore
  constructor
  · intro nid
    rcases hatt : n.attachments with _ | atts
    · rw [hatt] at hcore
      rw [hcore]; simp
    · rw [hatt] at hcore
      obtain ⟨l, hl⟩ := hprep atts hatt
      by_cases hlen : atts.length > 0
      · simp only [hl, hlen, if_true] at hcore
        rw [hcore]; simp
      · simp only [hl, hlen, if_false] at hcore
        rw [hcore]; simp
  · obtain ⟨matt, hm⟩ := send_mail_singleton adapter n b t addr hb hid hr ha hprep
    exact ⟨{ «to» := addr, «from» := mkFrom adapter.config, subject := t.subject,
             html := t.body, attachments := matt }, hm, rfl⟩

/-- Witness for claim C5 at the spec's one-off scenario: notification id
"2" addressed to "c@z.com". -/
theorem send_oneOff_direct_witness :
    (∀ nid, Event.backendLookup nid ∉ (send demoAdapter demoOneOff).snd) ∧
    ∃ m, mailCalls (send demoAdapter demoOneOff).snd = [m] ∧
      m.«to» = "c@z.com" :=
  send_oneOff_direct demoAdapter demoOneOff demoBackend
    ⟨"S", "<p>B</p>"⟩ "c@z.com" rfl rfl rfl rfl
    (fun _atts h => Option.noConfusion h)

/-- Claim C6 counterexample: with a backend injected and an absent
notification id, a failing template render makes `send` fail with the
render's own error rather than the id-required error (the render precedes
the id check); no mail call is made. -/
theorem send_missing_id_error_cex :
    (send failRenderAdapter noIdNotification).fst = .error "Template render failed" ∧
    (send failRenderAdapter noIdNotification).fst ≠ .error "Notification ID is required" ∧
    mailCalls (send failRenderAdapter noIdNotification).snd = [] := by
  decide

/-- Claim C6 (amended): for every notification with a falsy id on an
adapter with an injected backend, `send` fails and no outbound mail call
is made; the error is the id-required error whenever the template render
succeeds (a render failure propagates its own error instead). -/
theorem send_missing_id_fails_no_mail (adapter : Adapter) (n : Notification)
    (b : Backend)
    (hb : adapter.backend = some b)
    (hid : strOptTruthy n.id = false) :
    (∃ e, (send adapter n).fst = .error e) ∧
    mailCalls (send adapter n).snd = [] ∧
    ∀ t, adapter.render = .ok t →
      (send adapter n).fst = .error "Notification ID is required" := by
  rcases hr : adapter.render with e | t
  · refine ⟨⟨e, by simp [send, hb, hr]⟩, by simp [send, hb, hr, mailCalls], ?_⟩
    intro t ht
    exact absurd ht (by simp)
  · exact ⟨⟨"Notification ID is required", by simp [send, hb, hr, hid]⟩,
      by simp [send, hb, hr, hid, mailCalls],
      fun t2 ht => by simp [send, hb, hr, hid]⟩

/-- Witness for the amended claim C6 at the scenario adapter and an
id-less notification. -/
theorem send_missing_id_fails_no_mail_witness :
    (∃ e, (send demoAdapter noIdNotification).fst = .error e) ∧
    mailCalls (send demoAdapter noIdNotification).snd = [] ∧
    ∀ t, demoAdapter.render = .ok t →
      (send demoAdapter noIdNotification).fst = .error "Notification ID is required" :=
  send_missing_id_fails_no_mail demoAdapter noIdNotification demoBackend rfl rfl

/-- Claim C7: for an account-bound notification (no `emailOrPhone`) whose
backend lookup yields no address, `send` fails with an error message
naming that notification's id, and no mail call is made. -/
theorem send_lookup_missing_fails (adapter : Adapter) (n : Notification)
    (b : Backend) (t : RenderedTemplate) (nid : String)
    (hb : adapter.backend = some b)
    (hnid : n.id = some nid)
    (hid : strOptTruthy n.id = true)
    (hr : adapter.render = .ok t)
    (hone : n.emailOrPhone = none)
    (hlook : b.getUserEmailFromNotification nid = none) :
    (send adapter n).fst = .error ("User email not found for notification " ++ nid) ∧
    mailCalls (send adapter n).snd = [] := by
  have hg : getRecipientEmail b n =
      (.error ("User email not found for notification " ++ nid),
       [Event.backendLookup nid]) := by
    simp [getRecipientEmail, hone, hnid, hlook]
  constructor <;> simp [send, hb, hr, hid, hg, mailCalls]

/-- Witness for claim C7 at the scenario adapter and a notification whose
id "9" the backend cannot resolve. -/
theorem send_lookup_missing_fails_witness :
    (send demoAdapter unknownUserNotification).fst =
      .error ("User email not found for notification " ++ "9") ∧
    mailCalls (send demoAdapter unknownUserNotification).snd = [] :=
  send_lookup_missing_fails demoAdapter unknownUserNotification demoBackend
    ⟨"S", "<p>B</p>"⟩ "9" rfl rfl rfl rfl rfl rfl

/-- Claim C8: on an adapter without an injected backend, `send` fails with
the "Backend not injected" error and performs nothing at all — the trace
is empty — for every notification, account-bound or one-off. -/
theorem send_backend_missing_fails (adapter : Adapter) (n : Notification)
    (hb : adapter.backend = none) :
    (send adapter n).fst = .error "Backend not injected" ∧
    (send adapter n).snd = [] := by
  constructor <;> simp [send, hb]

/-- Witness for claim C8 at a backend-less adapter and the one-off
notification (which would not need the backend for recipient
resolution). -/
theorem send_backend_missing_fails_witness :
    (send noBackendAdapter demoOneOff).fst = .error "Backend not injected" ∧
    (send noBackendAdapter demoOneOff).snd = [] :=
  send_backend_missing_fails noBackendAdapter demoOneOff rfl

/-- Claim C9: if the byte-read of the attachment at index i fails with
error e while every earlier read succeeds (and the happy-path hypotheses
hold up to that point), `send` fails with exactly e and performs no
outbound mail call — no partial attachment set is ever sent. -/
theorem send_attachment_read_failure_aborts (adapter : Adapter) (n : Notification)
    (b : Backend) (t : RenderedTemplate) (addr : String)
    (atts : List StoredAttachment) (i : Nat) (e : String)
    (hb : adapter.backend = some b)
    (hid : strOptTruthy n.id = true)
    (hr : adapter.render = .ok t)
    (ha : (getRecipientEmail b n).fst = .ok addr)
    (hatts : n.attachments = some atts)
    (hi : i < atts.length)
    (hfail : (atts.get ⟨i, hi⟩).file = .error e)
    (hbefore : ∀ j (hj : j < atts.length), j < i →
      ∃ bytes, (atts.get ⟨j, hj⟩).file = .ok bytes) :
    (send adapter n).fst = .error e ∧
    mailCalls (send adapter n).snd = [] := by
  have hprep := prepareAttachments_error_at atts i e hi hfail hbefore
  have hcore := send_resolved adapter n b t addr hb hid hr ha
  rw [hatts] at hcore
  have hlen : atts.length > 0 := Nat.lt_of_le_of_lt (Nat.zero_le i) hi
  simp only [hprep, hlen, if_true] at hcore
  constructor
  · rw [hcore]
  · rw [hcore]
    simp [mailCalls_cons_render, mailCalls_cons_attach, mailCalls_append,
          mailCalls_nil, mailCalls_getRecipientEmail]

/-- Witness for claim C9 at a notification whose second attachment's read
fails with "read failed" while the first succeeds. -/
theorem send_attachment_read_failure_aborts_witness :
    (send demoAdapter badAttachNotification).fst = .error "read failed" ∧
    mailCalls (send demoAdapter badAttachNotification).snd = [] :=
  send_attachment_read_failure_aborts demoAdapter badAttachNotification
    demoBackend ⟨"S", "<p>B</p>"⟩ "b@y.com"
    [demoAttachment, badAttachment] 1 "read failed"
    rfl rfl rfl rfl rfl (by decide) rfl
    (by
      intro j hj hji
      have hz : j = 0 := Nat.lt_one_iff.mp hji
      subst hz
      exact ⟨[116, 101, 115, 116], rfl⟩)

/-- Claim C10: a configured-but-empty `fromName` is falsy in the source's
ternary, so (under the happy-path hypotheses) the single outbound
request's sender is the bare `fromEmail` string, never the structured
pair with an empty name. -/
theorem send_empty_fromName_bare (adapter : Adapter) (n : Notification)
    (b : Backend) (t : RenderedTemplate) (addr : String)
    (hb : adapter.backend = some b)
    (hid : strOptTruthy n.id = true)
    (hr : adapter.render = .ok t)
    (ha : (getRecipientEmail b n).fst = .ok addr)
    (hprep : attachPrepOk n)
    (hname : adapter.config.fromName = some "") :
    ∃ m, mailCalls (send adapter n).snd = [m] ∧
      m.«from» = FromField.bare adapter.config.fromEmail := by
  obtain ⟨matt, hm⟩ := send_mail_singleton adapter n b t addr hb hid hr ha hprep
  exact ⟨{ «to» := addr, «from» := mkFrom adapter.config, subject := t.subject,
           html := t.body, attachments := matt }, hm,
    mkFrom_emptyName adapter.config hname⟩

/-- Witness for claim C10 at the scenario adapter reconfigured with an
empty `fromName`. -/
theorem send_empty_fromName_bare_witness :
    ∃ m, mailCalls (send emptyNameAdapter demoNotification).snd = [m] ∧
      m.«from» = FromField.bare emptyNameAdapter.config.fromEmail :=
  send_empty_fromName_bare emptyNameAdapter demoNotification demoBackend
    ⟨"S", "<p>B</p>"⟩ "b@y.com" rfl rfl rfl rfl
    (fun _atts h => Option.noConfusion h) rfl

end VintasendSendgrid
